import Mathlib

/-
Verification of the request-handling core of the naro-backend repository
(src/handler/handler.go) against its natural-language specification.

The handlers are embedded shallowly: every external effect of the Go code
(sqlx queries, bcrypt, the gorilla/echo session store, request binding) is
passed in as an explicit oracle value or function, and each handler is the
pure translation of those outcomes into an HTTP response, mirroring the
source line by line.  Go slices, structs and encoding/json marshalling are
modelled explicitly, including the omitempty semantics of struct tags.
-/

namespace NaroBackend

/-- JSON values as produced by Go encoding/json. Object fields are kept in
emission order. -/
inductive Json where
  | null
  | bool (b : Bool)
  | num (n : Int)
  | str (s : String)
  | arr (elems : List Json)
  | obj (fields : List (String × Json))

/-- Value of a key in a JSON object, none for absent keys and non-objects. -/
def Json.lookup (j : Json) (key : String) : Option Json :=
  match j with
  | Json.obj fields => (fields.find? (fun f => decide (f.1 = key))).map (fun f => f.2)
  | _ => none

/-- Whether a JSON value is an object carrying the given key. -/
def Json.hasKey (j : Json) (key : String) : Bool :=
  match j with
  | Json.obj fields => fields.any (fun f => decide (f.1 = key))
  | _ => false

/-- Response body: echo c.NoContent writes no body, c.String writes plain
text, c.JSON writes a JSON document. -/
inductive Body where
  | empty
  | text (s : String)
  | json (j : Json)

/-- An HTTP response as the handlers produce it. -/
structure Response where
  status : Nat
  body : Body

/-- Echo c.NoContent: a status code and no body. -/
def noContent (status : Nat) : Response := ⟨status, Body.empty⟩

/-- Echo c.String: a status code and a plain-text body. -/
def stringResp (status : Nat) (s : String) : Response := ⟨status, Body.text s⟩

/-- Echo c.JSON: a status code and a JSON body. -/
def jsonResp (status : Nat) (j : Json) : Response := ⟨status, Body.json j⟩

/-- Echo NewHTTPError rendered by the default error handler: the status and
a JSON object with a message field. -/
def newHTTPError (status : Nat) (msg : String) : Response :=
  ⟨status, Body.json (Json.obj [("message", Json.str msg)])⟩

/-- database/sql sql.NullString: a string plus a validity flag; Valid is
false when the column was NULL. -/
structure NullString where
  str : String
  valid : Bool

/-- database/sql sql.NullInt64. -/
structure NullInt64 where
  int64 : Int
  valid : Bool

/-- The City row struct of handler.go (lines 23-29), with sql.Null fields
for the nullable columns. -/
structure City where
  id : Int
  name : NullString
  countryCode : NullString
  district : NullString
  population : NullInt64

/-- The CityInput struct of handler.go (lines 31-37): the non-nullable
counterpart used for creation. -/
structure CityInput where
  id : Int
  name : String
  countryCode : String
  district : String
  population : Int

/-- The LoginRequestBody struct of handler.go (lines 80-83). -/
structure LoginRequestBody where
  username : String
  password : String

/-- The User row struct of handler.go (lines 129-132). -/
structure User where
  username : String
  hashedPass : String

/-- The Me response struct of handler.go (lines 194-196). -/
structure Me where
  username : String

/-- encoding/json output for sql.NullString: an exported-field struct
marshals as an object of its fields; there is no custom MarshalJSON on the
sql.Null types. -/
def marshalNullString (ns : NullString) : Json :=
  Json.obj [("String", Json.str ns.str), ("Valid", Json.bool ns.valid)]

/-- encoding/json output for sql.NullInt64. -/
def marshalNullInt64 (ni : NullInt64) : Json :=
  Json.obj [("Int64", Json.num ni.int64), ("Valid", Json.bool ni.valid)]

/-- encoding/json output for City under the tags of handler.go: omitempty
omits an int field equal to zero, but has no effect on struct-typed fields
(a struct value is never empty in encoding/json), so the four sql.Null
fields are always emitted, as nested objects. -/
def marshalCity (c : City) : Json :=
  Json.obj ((if c.id = 0 then [] else [("id", Json.num c.id)]) ++
    [("name", marshalNullString c.name),
     ("countryCode", marshalNullString c.countryCode),
     ("district", marshalNullString c.district),
     ("population", marshalNullInt64 c.population)])

/-- encoding/json output for CityInput: every field is a plain int or
string, so omitempty omits zero ints and empty strings. -/
def marshalCityInput (c : CityInput) : Json :=
  Json.obj ((if c.id = 0 then [] else [("id", Json.num c.id)]) ++
    (if c.name = "" then [] else [("name", Json.str c.name)]) ++
    (if c.countryCode = "" then [] else [("countryCode", Json.str c.countryCode)]) ++
    (if c.district = "" then [] else [("district", Json.str c.district)]) ++
    (if c.population = 0 then [] else [("population", Json.num c.population)]))

/-- encoding/json output for Me (tag username,omitempty). -/
def marshalMe (m : Me) : Json :=
  Json.obj (if m.username = "" then [] else [("username", Json.str m.username)])

/-- encoding/json output for a Go string slice: a nil slice marshals as
null; in the world handler the slice is nil exactly when nothing was
appended to it. -/
def marshalStringSlice (l : List String) : Json :=
  match l with
  | [] => Json.null
  | _ => Json.arr (l.map Json.str)

/-- Error of a database/sql query: either sql.ErrNoRows (the distinguished
zero-rows outcome) or any other store error, carrying its message. -/
inductive SqlErr where
  | noRows
  | other (msg : String)

/-- Result of a db.Get or db.Exec call. -/
abbrev DBRes (α : Type) := Except SqlErr α

/-- Shallow embedding of GetCityInfoHandler (handler.go lines 39-53):
the SELECT by name is the oracle findCityByName. -/
def GetCityInfoHandler (findCityByName : String → DBRes City) (cityName : String) :
    Response :=
  match findCityByName cityName with
  | Except.error SqlErr.noRows => noContent 404
  | Except.error (SqlErr.other _) => noContent 500
  | Except.ok city => jsonResp 200 (marshalCity city)

/-- Result of db.Exec INSERT: LastInsertId may itself fail. -/
structure ExecResult where
  lastInsertId : Except String Int

/-- Shallow embedding of PostCityHandler (handler.go lines 55-78). The bind
argument is the outcome of c.Bind on the request body. -/
def PostCityHandler (insertCity : CityInput → Except String ExecResult)
    (bind : Except String CityInput) : Response :=
  match bind with
  | Except.error _ => newHTTPError 400 "bad request body"
  | Except.ok city =>
    match insertCity city with
    | Except.error _ => noContent 500
    | Except.ok result =>
      match result.lastInsertId with
      | Except.error _ => noContent 500
      | Except.ok id => jsonResp 201 (marshalCityInput { city with id := id })

/-- External calls SignUpHandler makes, in source order: the user-count
query, bcrypt.GenerateFromPassword, and the INSERT INTO users. -/
structure SignUpStore where
  countUsersByUsername : String → DBRes Nat
  generateFromPassword : String → Except String String
  insertUser : String → String → Except String Unit

/-- Shallow embedding of SignUpHandler (handler.go lines 85-127). -/
def SignUpHandler (store : SignUpStore) (bind : Except String LoginRequestBody) :
    Response :=
  match bind with
  | Except.error _ => newHTTPError 400 "bad request body"
  | Except.ok req =>
    if req.password = "" ∨ req.username = "" then
      stringResp 400 "Username or Password is empty"
    else
      match store.countUsersByUsername req.username with
      | Except.error _ => noContent 500
      | Except.ok count =>
        if count > 0 then
          stringResp 409 "Username is already used"
        else
          match store.generateFromPassword req.password with
          | Except.error _ => noContent 500
          | Except.ok hashedPass =>
            match store.insertUser req.username hashedPass with
            | Except.error _ => noContent 500
            | Except.ok _ => noContent 201

/-- Error of a bcrypt.CompareHashAndPassword call: a normal mismatch is
the distinguished ErrMismatchedHashAndPassword; anything else carries its
message. -/
inductive BcryptErr where
  | mismatch
  | other (msg : String)

/-- A dynamically typed Go interface value as stored in sessions and the
echo per-request context: a string, or some non-nil non-string value. -/
inductive GoVal where
  | str (s : String)
  | nonString

/-- A gorilla session: its Values map. A missing key and a stored nil both
read back as none. -/
structure Session where
  values : String → Option GoVal

/-- Assignment to sess.Values. -/
def Session.set (sess : Session) (key : String) (v : GoVal) : Session :=
  ⟨fun k => if k = key then some v else sess.values k⟩

/-- External calls LoginHandler makes, in source order: the SELECT of the
user row, bcrypt.CompareHashAndPassword (hashed then plain), session.Get,
and sess.Save. -/
structure LoginStore where
  findUserByUsername : String → DBRes User
  compareHashAndPassword : String → String → Except BcryptErr Unit
  sessionGet : Except String Session
  sessionSave : Session → Except String Unit

/-- Shallow embedding of LoginHandler (handler.go lines 134-177). The
second component is the session value handed to sess.Save, none when the
handler exits before the session step; the error result of sess.Save is
discarded, exactly as in the source. -/
def LoginHandler (store : LoginStore) (bind : Except String LoginRequestBody) :
    Response × Option Session :=
  match bind with
  | Except.error _ => (stringResp 400 "bad request body", none)
  | Except.ok req =>
    if req.password = "" ∨ req.username = "" then
      (stringResp 400 "Username or Password is empty", none)
    else
      match store.findUserByUsername req.username with
      | Except.error SqlErr.noRows => (noContent 401, none)
      | Except.error (SqlErr.other _) => (noContent 500, none)
      | Except.ok user =>
        match store.compareHashAndPassword user.hashedPass req.password with
        | Except.error BcryptErr.mismatch => (noContent 401, none)
        | Except.error (BcryptErr.other _) => (noContent 500, none)
        | Except.ok _ =>
          match store.sessionGet with
          | Except.error _ => (stringResp 500 "something wrong in getting session", none)
          | Except.ok sess =>
            let sess2 := sess.set "userName" (GoVal.str req.username)
            let _ := store.sessionSave sess2
            (noContent 200, some sess2)

/-- Echo per-request context value bag, written by c.Set. -/
structure Ctx where
  values : String → Option GoVal

/-- Echo c.Set. -/
def Ctx.set (c : Ctx) (key : String) (v : GoVal) : Ctx :=
  ⟨fun k => if k = key then some v else c.values k⟩

/-- Outcome of running a handler chain: a normal response, or a runtime
panic from a failed interface type assertion. -/
inductive Outcome where
  | resp (r : Response)
  | panicked

/-- Shallow embedding of UserAuthMiddleware (handler.go lines 179-192).
The type assertion to string on the session value panics when the value is
non-nil and not a string. -/
def UserAuthMiddleware (sessionGet : Except String Session)
    (next : Ctx → Outcome) (c : Ctx) : Outcome :=
  match sessionGet with
  | Except.error _ => Outcome.resp (stringResp 500 "something wrong in getting session")
  | Except.ok sess =>
    match sess.values "userName" with
    | none => Outcome.resp (stringResp 401 "please login")
    | some (GoVal.str s) => next (c.set "userName" (GoVal.str s))
    | some GoVal.nonString => Outcome.panicked

/-- Shallow embedding of GetMeHandler (handler.go lines 198-202); the type
assertion on the context value panics unless the value is a string. -/
def GetMeHandler (c : Ctx) : Outcome :=
  match c.values "userName" with
  | some (GoVal.str s) => Outcome.resp (jsonResp 200 (marshalMe ⟨s⟩))
  | _ => Outcome.panicked

/-- External queries GetWorldHandler can make, one field per SQL statement
in the source. -/
structure WorldStore where
  countCountries : DBRes Nat
  nthCountryName : Nat → DBRes String
  countryCodeByName : String → DBRes String
  countCitiesByCode : String → DBRes Nat
  nthCityNameByCode : String → Nat → DBRes String
  cityByCodeAndName : String → String → DBRes City

/-- The offset loop of GetWorldHandler: starting at index i with the given
number of remaining iterations, fetch one name per index and append it to
the accumulator slice; the first query error aborts the loop. -/
def offsetLoop (nth : Nat → DBRes String) (i : Nat) (fuel : Nat)
    (acc : List String) : Except SqlErr (List String) :=
  match fuel with
  | 0 => Except.ok acc
  | fuel + 1 =>
    match nth i with
    | Except.error e => Except.error e
    | Except.ok name => offsetLoop nth (i + 1) fuel (acc ++ [name])

/-- Shallow embedding of GetWorldHandler (handler.go lines 204-292): three
branches selected by the path parameters, each mapping sql.ErrNoRows to 404
and any other query error to 500. -/
def GetWorldHandler (store : WorldStore) (countryName cityName : String) :
    Response :=
  if countryName = "allCountries" then
    match store.countCountries with
    | Except.error SqlErr.noRows => noContent 404
    | Except.error (SqlErr.other _) => noContent 500
    | Except.ok howManyCountries =>
      match offsetLoop store.nthCountryName 0 howManyCountries [] with
      | Except.error SqlErr.noRows => noContent 404
      | Except.error (SqlErr.other _) => noContent 500
      | Except.ok countries => jsonResp 200 (marshalStringSlice countries)
  else
    if cityName = "allCities" then
      match store.countryCodeByName countryName with
      | Except.error SqlErr.noRows => noContent 404
      | Except.error (SqlErr.other _) => noContent 500
      | Except.ok countryCode =>
        match store.countCitiesByCode countryCode with
        | Except.error SqlErr.noRows => noContent 404
        | Except.error (SqlErr.other _) => noContent 500
        | Except.ok howManyCities =>
          match offsetLoop (store.nthCityNameByCode countryCode) 0 howManyCities [] with
          | Except.error SqlErr.noRows => noContent 404
          | Except.error (SqlErr.other _) => noContent 500
          | Except.ok cities => jsonResp 200 (marshalStringSlice cities)
    else
      match store.countryCodeByName countryName with
      | Except.error SqlErr.noRows => noContent 404
      | Except.error (SqlErr.other _) => noContent 500
      | Except.ok countryCode =>
        match store.cityByCodeAndName countryCode cityName with
        | Except.error SqlErr.noRows => noContent 404
        | Except.error (SqlErr.other _) => noContent 500
        | Except.ok cityInfo => jsonResp 200 (marshalCity cityInfo)

/-- Lexicographic strict order on char lists by code point, the order the
ORDER BY Name ASC clauses of the source sort by. -/
def lexLt : List Char → List Char → Bool
  | _, [] => false
  | [], _ :: _ => true
  | a :: as, b :: bs =>
    if a.val.toNat < b.val.toNat then true
    else if b.val.toNat < a.val.toNat then false
    else lexLt as bs

/-- Strict lexicographic order on strings. -/
def strLt (a b : String) : Bool := lexLt a.data b.data

/-- The reflexive order on strings used for sorting: a comes no later
than b. -/
def strLeP : String → String → Prop := fun a b => strLt b a = false

/-- Strict version of the sort order. -/
def strLtP : String → String → Prop := fun a b => strLt a b = true

instance : DecidableRel strLeP :=
  fun a b => inferInstanceAs (Decidable (strLt b a = false))

instance : DecidableRel strLtP :=
  fun a b => inferInstanceAs (Decidable (strLt a b = true))

theorem lexLt_irrefl (as : List Char) : lexLt as as = false := by
  induction as with
  | nil => rfl
  | cons a as ih => simp [lexLt, ih]

theorem lexLt_trans {as bs cs : List Char} (h1 : lexLt as bs = true)
    (h2 : lexLt bs cs = true) : lexLt as cs = true := by
  induction as generalizing bs cs with
  | nil =>
    cases bs with
    | nil => simp [lexLt] at h1
    | cons b bs =>
      cases cs with
      | nil => simp [lexLt] at h2
      | cons c cs => rfl
  | cons a as ih =>
    cases bs with
    | nil => simp [lexLt] at h1
    | cons b bs =>
      cases cs with
      | nil => simp [lexLt] at h2
      | cons c cs =>
        simp only [lexLt] at h1 h2 ⊢
        by_cases hab : a.val.toNat < b.val.toNat
        · by_cases hbc : b.val.toNat < c.val.toNat
          · have hac : a.val.toNat < c.val.toNat := Nat.lt_trans hab hbc
            simp [hac]
          · by_cases hcb : c.val.toNat < b.val.toNat
            · simp [hbc, hcb] at h2
            · have hac : a.val.toNat < c.val.toNat := by omega
              simp [hac]
        · by_cases hba : b.val.toNat < a.val.toNat
          · simp [hab, hba] at h1
          · simp [hab, hba] at h1
            by_cases hbc : b.val.toNat < c.val.toNat
            · have hac : a.val.toNat < c.val.toNat := by omega
              simp [hac]
            · by_cases hcb : c.val.toNat < b.val.toNat
              · simp [hbc, hcb] at h2
              · simp [hbc, hcb] at h2
                have hac1 : ¬ a.val.toNat < c.val.toNat := by omega
                have hac2 : ¬ c.val.toNat < a.val.toNat := by omega
                simp [hac1, hac2]
                exact ih h1 h2

theorem lexLt_connex {as bs : List Char} (h1 : lexLt as bs = false)
    (h2 : lexLt bs as = false) : as = bs := by
  induction as generalizing bs with
  | nil =>
    cases bs with
    | nil => rfl
    | cons b bs => simp [lexLt] at h1
  | cons a as ih =>
    cases bs with
    | nil => simp [lexLt] at h2
    | cons b bs =>
      simp only [lexLt] at h1 h2
      by_cases hab : a.val.toNat < b.val.toNat <;>
        by_cases hba : b.val.toNat < a.val.toNat <;>
        simp [hab, hba] at h1 h2
      have hv : a = b := Char.ext (UInt32.toNat.inj (by omega))
      rw [hv, ih h1 h2]

theorem strLeP_total (a b : String) : strLeP a b ∨ strLeP b a := by
  by_contra h
  push_neg at h
  obtain ⟨h1, h2⟩ := h
  simp only [strLeP, Bool.not_eq_false] at h1 h2
  have := lexLt_trans h1 h2
  rw [lexLt_irrefl] at this
  exact Bool.false_ne_true this

theorem strLeP_trans {a b c : String} (h1 : strLeP a b) (h2 : strLeP b c) :
    strLeP a c := by
  simp only [strLeP, strLt] at h1 h2 ⊢
  cases hab : lexLt a.data b.data with
  | true =>
    cases hca : lexLt c.data a.data with
    | true => rw [lexLt_trans hca hab] at h2; exact h2
    | false => rfl
  | false =>
    have heq : a.data = b.data := lexLt_connex hab h1
    rw [← heq] at h2
    exact h2

theorem strLtP_of_ne {a b : String} (hne : a ≠ b) (hle : strLeP a b) :
    strLtP a b := by
  simp only [strLeP, strLt] at hle
  simp only [strLtP, strLt]
  cases hab : lexLt a.data b.data with
  | true => rfl
  | false => exact absurd (String.ext (lexLt_connex hab hle)) hne

instance : IsTotal String strLeP := ⟨strLeP_total⟩

instance : IsTrans String strLeP := ⟨fun _ _ _ => strLeP_trans⟩

/-- Ascending sort by name, the semantics of the ORDER BY Name ASC clauses. -/
def sortedNames (names : List String) : List String :=
  List.insertionSort strLeP names

/-- A row of the country table: only Code and Name are read by the core. -/
structure CountryRow where
  code : String
  name : String

/-- A row of the city table as the creation path writes it: all four value
columns present. -/
structure CityRow where
  id : Int
  name : String
  countryCode : String
  district : String
  population : Int

/-- The relational state the world queries run against. -/
structure DB where
  countries : List CountryRow
  cities : List CityRow

/-- The City record a SELECT star scan produces from a fully populated row. -/
def CityRow.toCity (r : CityRow) : City :=
  ⟨r.id, ⟨r.name, true⟩, ⟨r.countryCode, true⟩, ⟨r.district, true⟩,
    ⟨r.population, true⟩⟩

/-- Name column of the country table in table order. -/
def DB.countryNames (db : DB) : List String :=
  db.countries.map CountryRow.name

/-- Name column of the city rows with the given country code, in table
order. -/
def DB.cityNamesByCode (db : DB) (code : String) : List String :=
  (db.cities.filter (fun r => decide (r.countryCode = code))).map CityRow.name

/-- Semantics of a single-row SELECT with LIMIT 1 OFFSET j against an
ordered column: the j-th entry, or sql.ErrNoRows past the end. -/
def nthOfList (l : List String) (j : Nat) : DBRes String :=
  match l[j]? with
  | none => Except.error SqlErr.noRows
  | some name => Except.ok name

/-- SQL semantics of each query GetWorldHandler issues, over an explicit
table state; no query fails with a non-NotFound store error. A WHERE
lookup returns the first matching row, ORDER BY returns the name column
ascending, COUNT returns the number of matching rows. -/
def storeOfDB (db : DB) : WorldStore where
  countCountries := Except.ok db.countries.length
  nthCountryName := nthOfList (sortedNames db.countryNames)
  countryCodeByName := fun name =>
    match db.countries.filter (fun r => decide (r.name = name)) with
    | [] => Except.error SqlErr.noRows
    | r :: _ => Except.ok r.code
  countCitiesByCode := fun code => Except.ok (db.cityNamesByCode code).length
  nthCityNameByCode := fun code => nthOfList (sortedNames (db.cityNamesByCode code))
  cityByCodeAndName := fun code name =>
    match db.cities.filter (fun r => decide (r.countryCode = code) && decide (r.name = name)) with
    | [] => Except.error SqlErr.noRows
    | r :: _ => Except.ok r.toCity

theorem offsetLoop_nthOfList (l : List String) (fuel : Nat) :
    ∀ (i : Nat) (acc : List String), i + fuel = l.length →
      offsetLoop (nthOfList l) i fuel acc = Except.ok (acc ++ l.drop i) := by
  induction fuel with
  | zero =>
    intro i acc h
    have hi : i = l.length := by omega
    simp [offsetLoop, hi, List.drop_length]
  | succ n ih =>
    intro i acc h
    have hi : i < l.length := by omega
    have hget : l[i]? = some l[i] := List.getElem?_eq_getElem hi
    have hdrop : l.drop i = l[i] :: l.drop (i + 1) := List.drop_eq_getElem_cons hi
    simp only [offsetLoop, nthOfList, hget]
    rw [ih (i + 1) (acc ++ [l[i]]) (by omega), hdrop]
    simp

theorem sortedNames_perm (names : List String) :
    List.Perm (sortedNames names) names :=
  List.perm_insertionSort _ _

theorem sortedNames_length (names : List String) :
    (sortedNames names).length = names.length :=
  (sortedNames_perm names).length_eq

theorem sortedNames_sorted (names : List String) :
    List.Sorted strLeP (sortedNames names) :=
  List.sorted_insertionSort _ _

theorem sortedNames_sorted_strict {names : List String} (h : names.Nodup) :
    List.Sorted strLtP (sortedNames names) := by
  have hnd : (sortedNames names).Nodup := ((sortedNames_perm names).nodup_iff).mpr h
  have hs := sortedNames_sorted names
  exact List.Pairwise.imp₂ (fun a b hle hne => strLtP_of_ne hne hle) hs hnd

/-- C1: for every signup request, a body that fails to bind yields 400;
an empty username or password yields 400 with body
Username or Password is empty; a user-count result greater than zero
yields 409 with body Username is already used, and that outcome is
independent of the hash and insert oracles (the duplicate check happens
before hashing or inserting); a failing count query, hash, or insert
yields 500; otherwise the handler returns 201 with an empty body. -/
theorem signup_spec :
    (∀ (store : SignUpStore) (msg : String),
      SignUpHandler store (Except.error msg) = newHTTPError 400 "bad request body")
    ∧ (∀ (store : SignUpStore) (req : LoginRequestBody),
        req.password = "" ∨ req.username = "" →
        SignUpHandler store (Except.ok req)
          = stringResp 400 "Username or Password is empty")
    ∧ (∀ (cu : String → DBRes Nat) (hsh1 hsh2 : String → Except String String)
        (ins1 ins2 : String → String → Except String Unit)
        (req : LoginRequestBody) (count : Nat),
        req.password ≠ "" → req.username ≠ "" →
        cu req.username = Except.ok count → 0 < count →
        SignUpHandler ⟨cu, hsh1, ins1⟩ (Except.ok req)
          = stringResp 409 "Username is already used"
        ∧ SignUpHandler ⟨cu, hsh1, ins1⟩ (Except.ok req)
          = SignUpHandler ⟨cu, hsh2, ins2⟩ (Except.ok req))
    ∧ (∀ (store : SignUpStore) (req : LoginRequestBody) (e : SqlErr),
        req.password ≠ "" → req.username ≠ "" →
        store.countUsersByUsername req.username = Except.error e →
        SignUpHandler store (Except.ok req) = noContent 500)
    ∧ (∀ (store : SignUpStore) (req : LoginRequestBody) (msg : String),
        req.password ≠ "" → req.username ≠ "" →
        store.countUsersByUsername req.username = Except.ok 0 →
        store.generateFromPassword req.password = Except.error msg →
        SignUpHandler store (Except.ok req) = noContent 500)
    ∧ (∀ (store : SignUpStore) (req : LoginRequestBody) (hashed msg : String),
        req.password ≠ "" → req.username ≠ "" →
        store.countUsersByUsername req.username = Except.ok 0 →
        store.generateFromPassword req.password = Except.ok hashed →
        store.insertUser req.username hashed = Except.error msg →
        SignUpHandler store (Except.ok req) = noContent 500)
    ∧ (∀ (store : SignUpStore) (req : LoginRequestBody) (hashed : String),
        req.password ≠ "" → req.username ≠ "" →
        store.countUsersByUsername req.username = Except.ok 0 →
        store.generateFromPassword req.password = Except.ok hashed →
        store.insertUser req.username hashed = Except.ok () →
        SignUpHandler store (Except.ok req) = noContent 201) := by
  refine ⟨fun store msg => rfl, ?_, ?_, ?_, ?_, ?_, ?_⟩
  · intro store req h
    simp [SignUpHandler, h]
  · intro cu hsh1 hsh2 ins1 ins2 req count hp hu hcu hc
    constructor <;> simp [SignUpHandler, hp, hu, hcu, hc]
  · intro store req e hp hu hcu
    simp [SignUpHandler, hp, hu, hcu]
  · intro store req msg hp hu hcu hhash
    simp [SignUpHandler, hp, hu, hcu, hhash]
  · intro store req hashed msg hp hu hcu hhash hins
    simp [SignUpHandler, hp, hu, hcu, hhash, hins]
  · intro store req hashed hp hu hcu hhash hins
    simp [SignUpHandler, hp, hu, hcu, hhash, hins]

/-- Witness for signup_spec: a duplicate signup for alice is answered 409
regardless of the hash and insert oracles. -/
theorem signup_spec_witness :
    SignUpHandler ⟨fun _ => Except.ok 1, fun p => Except.ok p, fun _ _ => Except.ok ()⟩
      (Except.ok ⟨"alice", "pw"⟩) = stringResp 409 "Username is already used" :=
  (signup_spec.2.2.1 (fun _ => Except.ok 1) (fun p => Except.ok p)
    (fun _ => Except.error "boom") (fun _ _ => Except.ok ())
    (fun _ _ => Except.error "boom") ⟨"alice", "pw"⟩ 1
    (by decide) (by decide) rfl (by decide)).1

/-- C8: for every POST cities request, a failing bind yields 400; any
bindable CityInput, empty strings included, is passed to the insert with
no validation; an insert or LastInsertId failure yields 500; on success
the handler returns 201 with the submitted CityInput echoed back, its id
field replaced by the generated insert id. -/
theorem postCity_spec :
    (∀ (ins : CityInput → Except String ExecResult) (msg : String),
      PostCityHandler ins (Except.error msg) = newHTTPError 400 "bad request body")
    ∧ (∀ (ins : CityInput → Except String ExecResult) (city : CityInput) (msg : String),
        ins city = Except.error msg →
        PostCityHandler ins (Except.ok city) = noContent 500)
    ∧ (∀ (ins : CityInput → Except String ExecResult) (city : CityInput)
        (res : ExecResult) (msg : String),
        ins city = Except.ok res → res.lastInsertId = Except.error msg →
        PostCityHandler ins (Except.ok city) = noContent 500)
    ∧ (∀ (ins : CityInput → Except String ExecResult) (city : CityInput)
        (res : ExecResult) (id : Int),
        ins city = Except.ok res → res.lastInsertId = Except.ok id →
        PostCityHandler ins (Except.ok city)
          = jsonResp 201 (marshalCityInput { city with id := id })) := by
  refine ⟨fun ins msg => rfl, ?_, ?_, ?_⟩
  · intro ins city msg h
    simp [PostCityHandler, h]
  · intro ins city res msg h1 h2
    simp [PostCityHandler, h1, h2]
  · intro ins city res id h1 h2
    simp [PostCityHandler, h1, h2]

/-- Witness for postCity_spec: a CityInput whose fields are all empty
strings and zeros is inserted as-is and echoed back with the generated id. -/
theorem postCity_spec_witness :
    PostCityHandler (fun _ => Except.ok ⟨Except.ok 7⟩) (Except.ok ⟨0, "", "", "", 0⟩)
      = jsonResp 201 (marshalCityInput ⟨7, "", "", "", 0⟩) :=
  postCity_spec.2.2.2 (fun _ => Except.ok ⟨Except.ok 7⟩) ⟨0, "", "", "", 0⟩
    ⟨Except.ok 7⟩ 7 rfl rfl

/-- C9: the error result of sess.Save is discarded by LoginHandler: the
handler output never depends on the save oracle, and once credentials are
verified and session.Get succeeded the status is 200 even when saving
fails, so the client can receive 200 without the session having been
durably persisted. -/
theorem login_ignores_save_error :
    (∀ (find : String → DBRes User) (cmp : String → String → Except BcryptErr Unit)
       (sget : Except String Session) (save1 save2 : Session → Except String Unit)
       (bind : Except String LoginRequestBody),
      LoginHandler ⟨find, cmp, sget, save1⟩ bind = LoginHandler ⟨find, cmp, sget, save2⟩ bind)
    ∧ (∀ (find : String → DBRes User) (cmp : String → String → Except BcryptErr Unit)
        (sess : Session) (save : Session → Except String Unit)
        (req : LoginRequestBody) (user : User),
        req.password ≠ "" → req.username ≠ "" →
        find req.username = Except.ok user →
        cmp user.hashedPass req.password = Except.ok () →
        LoginHandler ⟨find, cmp, Except.ok sess, save⟩ (Except.ok req)
          = (noContent 200, some (sess.set "userName" (GoVal.str req.username)))) := by
  refine ⟨fun find cmp sget save1 save2 bind => rfl, ?_⟩
  intro find cmp sess save req user hp hu hfind hcmp
  simp [LoginHandler, hp, hu, hfind, hcmp]

/-- Witness for login_ignores_save_error: with a failing save oracle the
login still answers 200. -/
theorem login_ignores_save_error_witness :
    LoginHandler ⟨fun _ => Except.ok ⟨"alice", "h"⟩, fun _ _ => Except.ok (),
        Except.ok ⟨fun _ => none⟩, fun _ => Except.error "disk full"⟩
      (Except.ok ⟨"alice", "pw"⟩)
      = (noContent 200, some (Session.set ⟨fun _ => none⟩ "userName" (GoVal.str "alice"))) :=
  login_ignores_save_error.2 (fun _ => Except.ok ⟨"alice", "h"⟩) (fun _ _ => Except.ok ())
    ⟨fun _ => none⟩ (fun _ => Except.error "disk full") ⟨"alice", "pw"⟩ ⟨"alice", "h"⟩
    (by decide) (by decide) rfl rfl

/-- C2: with non-empty credentials, a nonexistent username and a wrong
password for an existing username produce the same response, status 401
with no body and no session write, so the two failure causes cannot be
told apart from the response. -/
theorem login_bad_credentials_indistinguishable
    (sA sB : LoginStore) (reqA reqB : LoginRequestBody) (userB : User)
    (hA1 : reqA.password ≠ "") (hA2 : reqA.username ≠ "")
    (hB1 : reqB.password ≠ "") (hB2 : reqB.username ≠ "")
    (hA : sA.findUserByUsername reqA.username = Except.error SqlErr.noRows)
    (hB : sB.findUserByUsername reqB.username = Except.ok userB)
    (hBm : sB.compareHashAndPassword userB.hashedPass reqB.password
      = Except.error BcryptErr.mismatch) :
    LoginHandler sA (Except.ok reqA) = (noContent 401, none)
    ∧ LoginHandler sB (Except.ok reqB) = (noContent 401, none)
    ∧ LoginHandler sA (Except.ok reqA) = LoginHandler sB (Except.ok reqB) := by
  have h1 : LoginHandler sA (Except.ok reqA) = (noContent 401, none) := by
    simp [LoginHandler, hA1, hA2, hA]
  have h2 : LoginHandler sB (Except.ok reqB) = (noContent 401, none) := by
    simp [LoginHandler, hB1, hB2, hB, hBm]
  exact ⟨h1, h2, h1.trans h2.symm⟩

/-- Witness for login_bad_credentials_indistinguishable: an unknown user
and a mismatched password both get exactly (401, empty, no session). -/
theorem login_bad_credentials_indistinguishable_witness :
    LoginHandler ⟨fun _ => Except.error SqlErr.noRows, fun _ _ => Except.ok (),
        Except.ok ⟨fun _ => none⟩, fun _ => Except.ok ()⟩
      (Except.ok ⟨"ghost", "pw"⟩) = (noContent 401, none)
    ∧ LoginHandler ⟨fun _ => Except.ok ⟨"bob", "h"⟩,
        fun _ _ => Except.error BcryptErr.mismatch,
        Except.ok ⟨fun _ => none⟩, fun _ => Except.ok ()⟩
      (Except.ok ⟨"bob", "wrong"⟩) = (noContent 401, none) :=
  let h := login_bad_credentials_indistinguishable
    ⟨fun _ => Except.error SqlErr.noRows, fun _ _ => Except.ok (),
      Except.ok ⟨fun _ => none⟩, fun _ => Except.ok ()⟩
    ⟨fun _ => Except.ok ⟨"bob", "h"⟩, fun _ _ => Except.error BcryptErr.mismatch,
      Except.ok ⟨fun _ => none⟩, fun _ => Except.ok ()⟩
    ⟨"ghost", "pw"⟩ ⟨"bob", "wrong"⟩ ⟨"bob", "h"⟩
    (by decide) (by decide) (by decide) (by decide) rfl rfl rfl
  ⟨h.1, h.2.1⟩

/-- C3: contrary to the nullable round-trip rule, a City whose nullable
columns are absent is not serialized with those fields omitted: the
omitempty tag has no effect on the sql.Null struct fields, so an absent
name is emitted as a nested object with Valid false, and a present name is
also emitted as a nested object rather than a plain JSON string. The GET
city handler returns exactly this marshalling. -/
theorem city_null_fields_not_omitted :
    GetCityInfoHandler (fun _ => Except.ok ⟨1, ⟨"", false⟩, ⟨"", false⟩, ⟨"", false⟩, ⟨0, false⟩⟩)
      "Tokyo"
      = jsonResp 200 (marshalCity ⟨1, ⟨"", false⟩, ⟨"", false⟩, ⟨"", false⟩, ⟨0, false⟩⟩)
    ∧ (marshalCity ⟨1, ⟨"", false⟩, ⟨"", false⟩, ⟨"", false⟩, ⟨0, false⟩⟩).hasKey "name" = true
    ∧ (marshalCity ⟨1, ⟨"", false⟩, ⟨"", false⟩, ⟨"", false⟩, ⟨0, false⟩⟩).hasKey "district" = true
    ∧ (marshalCity ⟨1, ⟨"", false⟩, ⟨"", false⟩, ⟨"", false⟩, ⟨0, false⟩⟩).hasKey "population" = true
    ∧ (marshalCity ⟨1, ⟨"", false⟩, ⟨"", false⟩, ⟨"", false⟩, ⟨0, false⟩⟩).lookup "name"
      = some (Json.obj [("String", Json.str ""), ("Valid", Json.bool false)])
    ∧ (marshalCity ⟨1, ⟨"Tokyo", true⟩, ⟨"JPN", true⟩, ⟨"Tokyo-to", true⟩, ⟨7980230, true⟩⟩).lookup "name"
      = some (Json.obj [("String", Json.str "Tokyo"), ("Valid", Json.bool true)]) :=
  ⟨rfl, rfl, rfl, rfl, rfl, rfl⟩

/-- Helper: whenever LoginHandler hands a session to sess.Save, that
session holds the bound, validated username under the userName key. -/
theorem loginHandler_session_shape (store : LoginStore)
    (bind : Except String LoginRequestBody) (sess2 : Session)
    (h : (LoginHandler store bind).2 = some sess2) :
    ∃ (req : LoginRequestBody) (sess : Session), bind = Except.ok req ∧
      req.username ≠ "" ∧ req.password ≠ "" ∧
      sess2 = sess.set "userName" (GoVal.str req.username) := by
  cases bind with
  | error msg => simp [LoginHandler] at h
  | ok req =>
    by_cases hempty : req.password = "" ∨ req.username = ""
    · simp [LoginHandler, hempty] at h
    · push_neg at hempty
      cases hfind : store.findUserByUsername req.username with
      | error e => cases e <;> simp [LoginHandler, hempty.1, hempty.2, hfind] at h
      | ok user =>
        cases hcmp : store.compareHashAndPassword user.hashedPass req.password with
        | error e => cases e <;> simp [LoginHandler, hempty.1, hempty.2, hfind, hcmp] at h
        | ok u =>
          cases hsget : store.sessionGet with
          | error msg => simp [LoginHandler, hempty.1, hempty.2, hfind, hcmp, hsget] at h
          | ok sess =>
            simp [LoginHandler, hempty.1, hempty.2, hfind, hcmp, hsget] at h
            exact ⟨req, sess, rfl, hempty.2, hempty.1, h.symm⟩

/-- C7: the auth middleware answers 401 with plain text please login and
never reaches the inner handler when the session has no userName value;
when the value is a string it is copied into the request context under
userName and the inner handler runs, so composed with GetMeHandler the
response is 200 with a JSON object binding username to that string (the
non-empty strings are exactly what login stores, per the last conjunct). -/
theorem userAuth_contract :
    (∀ (sess : Session) (next : Ctx → Outcome) (c : Ctx),
      sess.values "userName" = none →
      UserAuthMiddleware (Except.ok sess) next c
        = Outcome.resp (stringResp 401 "please login"))
    ∧ (∀ (sess : Session) (next : Ctx → Outcome) (c : Ctx) (s : String),
        sess.values "userName" = some (GoVal.str s) →
        UserAuthMiddleware (Except.ok sess) next c
          = next (c.set "userName" (GoVal.str s)))
    ∧ (∀ (sess : Session) (c : Ctx) (s : String),
        sess.values "userName" = some (GoVal.str s) → s ≠ "" →
        UserAuthMiddleware (Except.ok sess) GetMeHandler c
          = Outcome.resp (jsonResp 200 (Json.obj [("username", Json.str s)])))
    ∧ (∀ (store : LoginStore) (bind : Except String LoginRequestBody) (sess2 : Session),
        (LoginHandler store bind).2 = some sess2 →
        ∃ s, sess2.values "userName" = some (GoVal.str s) ∧ s ≠ "") := by
  refine ⟨?_, ?_, ?_, ?_⟩
  · intro sess next c h
    simp [UserAuthMiddleware, h]
  · intro sess next c s h
    simp [UserAuthMiddleware, h]
  · intro sess c s h hs
    simp [UserAuthMiddleware, h, GetMeHandler, Ctx.set, marshalMe, hs]
  · intro store bind sess2 h
    obtain ⟨req, sess, hbind, hu, hp, hsess⟩ := loginHandler_session_shape store bind sess2 h
    exact ⟨req.username, by simp [hsess, Session.set], hu⟩

/-- Witness for userAuth_contract: a session holding the string alice
passes the middleware and GET me answers with that username. -/
theorem userAuth_contract_witness :
    UserAuthMiddleware (Except.ok ⟨fun k => if k = "userName" then some (GoVal.str "alice") else none⟩)
      GetMeHandler ⟨fun _ => none⟩
      = Outcome.resp (jsonResp 200 (Json.obj [("username", Json.str "alice")])) :=
  userAuth_contract.2.2.1
    ⟨fun k => if k = "userName" then some (GoVal.str "alice") else none⟩
    ⟨fun _ => none⟩ "alice" (by simp) (by decide)

/-- C10: the middleware reads the session userName value through an
unchecked string type assertion. Every session LoginHandler saves holds a
string there, so the assertion succeeds on sessions written by this core;
but on a non-nil non-string session value the middleware panics rather
than answering 401 or 500. -/
theorem session_value_cast :
    (∀ (store : LoginStore) (bind : Except String LoginRequestBody) (sess2 : Session),
      (LoginHandler store bind).2 = some sess2 →
      ∃ s, sess2.values "userName" = some (GoVal.str s))
    ∧ (∀ (sess : Session) (next : Ctx → Outcome) (c : Ctx) (s : String),
        sess.values "userName" = some (GoVal.str s) →
        UserAuthMiddleware (Except.ok sess) next c
          = next (c.set "userName" (GoVal.str s)))
    ∧ (∀ (sess : Session) (next : Ctx → Outcome) (c : Ctx),
        sess.values "userName" = some GoVal.nonString →
        UserAuthMiddleware (Except.ok sess) next c = Outcome.panicked
        ∧ ∀ r, UserAuthMiddleware (Except.ok sess) next c ≠ Outcome.resp r) := by
  refine ⟨?_, ?_, ?_⟩
  · intro store bind sess2 h
    obtain ⟨req, sess, hbind, hu, hp, hsess⟩ := loginHandler_session_shape store bind sess2 h
    exact ⟨req.username, by simp [hsess, Session.set]⟩
  · intro sess next c s h
    simp [UserAuthMiddleware, h]
  · intro sess next c h
    refine ⟨by simp [UserAuthMiddleware, h], ?_⟩
    intro r
    simp [UserAuthMiddleware, h]

/-- Witness for session_value_cast: a session whose userName value is a
non-string makes the middleware panic. -/
theorem session_value_cast_witness :
    UserAuthMiddleware (Except.ok ⟨fun k => if k = "userName" then some GoVal.nonString else none⟩)
      GetMeHandler ⟨fun _ => none⟩ = Outcome.panicked :=
  (session_value_cast.2.2
    ⟨fun k => if k = "userName" then some GoVal.nonString else none⟩
    GetMeHandler ⟨fun _ => none⟩ (by simp)).1

/-- C6 counterexample: two infrastructure failures inside LoginHandler do
not get the same body. A store failure on the user query is answered 500
with an empty body, while a session-fetch failure is answered 500 with the
fixed text something wrong in getting session, so the response body does
carry information about which step failed. -/
theorem infra_failure_bodies_differ :
    (LoginHandler ⟨fun _ => Except.error (SqlErr.other "db down"), fun _ _ => Except.ok (),
        Except.ok ⟨fun _ => none⟩, fun _ => Except.ok ()⟩
      (Except.ok ⟨"alice", "pw"⟩)).1 = noContent 500
    ∧ (LoginHandler ⟨fun _ => Except.ok ⟨"alice", "h"⟩, fun _ _ => Except.ok (),
        Except.error "redis down", fun _ => Except.ok ()⟩
      (Except.ok ⟨"alice", "pw"⟩)).1 = stringResp 500 "something wrong in getting session"
    ∧ noContent 500 ≠ stringResp 500 "something wrong in getting session" :=
  ⟨rfl, rfl, by simp [noContent, stringResp]⟩

/-- C6 amended: every non-NotFound store, hash, or session failure in
every handler is answered with status 500 and a body that is a fixed
constant independent of the underlying error text: the empty body
everywhere, except the two session-fetch sites (LoginHandler and the auth
middleware) whose body is the fixed text something wrong in getting
session. -/
theorem infra_failure_collapse :
    (∀ (find : String → DBRes City) (name msg : String),
      find name = Except.error (SqlErr.other msg) →
      GetCityInfoHandler find name = noContent 500)
    ∧ (∀ (ins : CityInput → Except String ExecResult) (city : CityInput) (msg : String),
        ins city = Except.error msg →
        PostCityHandler ins (Except.ok city) = noContent 500)
    ∧ (∀ (ins : CityInput → Except String ExecResult) (city : CityInput)
        (res : ExecResult) (msg : String),
        ins city = Except.ok res → res.lastInsertId = Except.error msg →
        PostCityHandler ins (Except.ok city) = noContent 500)
    ∧ (∀ (store : SignUpStore) (req : LoginRequestBody) (msg : String),
        req.password ≠ "" → req.username ≠ "" →
        store.countUsersByUsername req.username = Except.error (SqlErr.other msg) →
        SignUpHandler store (Except.ok req) = noContent 500)
    ∧ (∀ (store : SignUpStore) (req : LoginRequestBody) (msg : String),
        req.password ≠ "" → req.username ≠ "" →
        store.countUsersByUsername req.username = Except.ok 0 →
        store.generateFromPassword req.password = Except.error msg →
        SignUpHandler store (Except.ok req) = noContent 500)
    ∧ (∀ (store : SignUpStore) (req : LoginRequestBody) (hashed msg : String),
        req.password ≠ "" → req.username ≠ "" →
        store.countUsersByUsername req.username = Except.ok 0 →
        store.generateFromPassword req.password = Except.ok hashed →
        store.insertUser req.username hashed = Except.error msg →
        SignUpHandler store (Except.ok req) = noContent 500)
    ∧ (∀ (store : LoginStore) (req : LoginRequestBody) (msg : String),
        req.password ≠ "" → req.username ≠ "" →
        store.findUserByUsername req.username = Except.error (SqlErr.other msg) →
        (LoginHandler store (Except.ok req)).1 = noContent 500)
    ∧ (∀ (store : LoginStore) (req : LoginRequestBody) (user : User) (msg : String),
        req.password ≠ "" → req.username ≠ "" →
        store.findUserByUsername req.username = Except.ok user →
        store.compareHashAndPassword user.hashedPass req.password
          = Except.error (BcryptErr.other msg) →
        (LoginHandler store (Except.ok req)).1 = noContent 500)
    ∧ (∀ (store : LoginStore) (req : LoginRequestBody) (user : User) (msg : String),
        req.password ≠ "" → req.username ≠ "" →
        store.findUserByUsername req.username = Except.ok user →
        store.compareHashAndPassword user.hashedPass req.password = Except.ok () →
        store.sessionGet = Except.error msg →
        (LoginHandler store (Except.ok req)).1
          = stringResp 500 "something wrong in getting session")
    ∧ (∀ (msg : String) (next : Ctx → Outcome) (c : Ctx),
        UserAuthMiddleware (Except.error msg) next c
          = Outcome.resp (stringResp 500 "something wrong in getting session"))
    ∧ (∀ (store : WorldStore) (cityName msg : String),
        store.countCountries = Except.error (SqlErr.other msg) →
        GetWorldHandler store "allCountries" cityName = noContent 500)
    ∧ (∀ (store : WorldStore) (cityName msg : String) (n : Nat),
        store.countCountries = Except.ok n →
        offsetLoop store.nthCountryName 0 n [] = Except.error (SqlErr.other msg) →
        GetWorldHandler store "allCountries" cityName = noContent 500)
    ∧ (∀ (store : WorldStore) (countryName cityName msg : String),
        countryName ≠ "allCountries" →
        store.countryCodeByName countryName = Except.error (SqlErr.other msg) →
        GetWorldHandler store countryName cityName = noContent 500)
    ∧ (∀ (store : WorldStore) (countryName code msg : String),
        countryName ≠ "allCountries" →
        store.countryCodeByName countryName = Except.ok code →
        store.countCitiesByCode code = Except.error (SqlErr.other msg) →
        GetWorldHandler store countryName "allCities" = noContent 500)
    ∧ (∀ (store : WorldStore) (countryName code msg : String) (n : Nat),
        countryName ≠ "allCountries" →
        store.countryCodeByName countryName = Except.ok code →
        store.countCitiesByCode code = Except.ok n →
        offsetLoop (store.nthCityNameByCode code) 0 n [] = Except.error (SqlErr.other msg) →
        GetWorldHandler store countryName "allCities" = noContent 500)
    ∧ (∀ (store : WorldStore) (countryName cityName code msg : String),
        countryName ≠ "allCountries" → cityName ≠ "allCities" →
        store.countryCodeByName countryName = Except.ok code →
        store.cityByCodeAndName code cityName = Except.error (SqlErr.other msg) →
        GetWorldHandler store countryName cityName = noContent 500) := by
  refine ⟨?_, ?_, ?_, ?_, ?_, ?_, ?_, ?_, ?_, ?_, ?_, ?_, ?_, ?_, ?_, ?_⟩
  · intro find name msg h
    simp [GetCityInfoHandler, h]
  · intro ins city msg h
    simp [PostCityHandler, h]
  · intro ins city res msg h1 h2
    simp [PostCityHandler, h1, h2]
  · intro store req msg hp hu h
    simp [SignUpHandler, hp, hu, h]
  · intro store req msg hp hu h1 h2
    simp [SignUpHandler, hp, hu, h1, h2]
  · intro store req hashed msg hp hu h1 h2 h3
    simp [SignUpHandler, hp, hu, h1, h2, h3]
  · intro store req msg hp hu h
    simp [LoginHandler, hp, hu, h]
  · intro store req user msg hp hu h1 h2
    simp [LoginHandler, hp, hu, h1, h2]
  · intro store req user msg hp hu h1 h2 h3
    simp [LoginHandler, hp, hu, h1, h2, h3]
  · intro msg next c
    rfl
  · intro store cityName msg h
    simp [GetWorldHandler, h]
  · intro store cityName msg n h1 h2
    simp [GetWorldHandler, h1, h2]
  · intro store countryName cityName msg hcn h
    by_cases hc : cityName = "allCities" <;> simp [GetWorldHandler, hcn, hc, h]
  · intro store countryName code msg hcn h1 h2
    simp [GetWorldHandler, hcn, h1, h2]
  · intro store countryName code msg n hcn h1 h2 h3
    simp [GetWorldHandler, hcn, h1, h2, h3]
  · intro store countryName cityName code msg hcn hc h1 h2
    simp [GetWorldHandler, hcn, hc, h1, h2]

/-- Witness for infra_failure_collapse: a failing city query is collapsed
to a bare 500. -/
theorem infra_failure_collapse_witness :
    GetCityInfoHandler (fun _ => Except.error (SqlErr.other "connection refused")) "Tokyo"
      = noContent 500 :=
  infra_failure_collapse.1 (fun _ => Except.error (SqlErr.other "connection refused"))
    "Tokyo" "connection refused" rfl

theorem storeOfDB_countCountries (db : DB) :
    (storeOfDB db).countCountries = Except.ok db.countries.length := rfl

theorem storeOfDB_nthCountryName (db : DB) :
    (storeOfDB db).nthCountryName = nthOfList (sortedNames db.countryNames) := rfl

theorem storeOfDB_countCitiesByCode (db : DB) (code : String) :
    (storeOfDB db).countCitiesByCode code
      = Except.ok (db.cityNamesByCode code).length := rfl

theorem storeOfDB_nthCityNameByCode (db : DB) (code : String) :
    (storeOfDB db).nthCityNameByCode code
      = nthOfList (sortedNames (db.cityNamesByCode code)) := rfl

theorem storeOfDB_cityByCodeAndName (db : DB) (code name : String) :
    (storeOfDB db).cityByCodeAndName code name
      = match db.cities.filter
            (fun row => decide (row.countryCode = code) && decide (row.name = name)) with
        | [] => Except.error SqlErr.noRows
        | r :: _ => Except.ok r.toCity := rfl

/-- C4 counterexample: with two country rows sharing the name X the
allCountries branch answers 200 with the list X, X, whose length equals
the row count but which is not strictly ascending. -/
theorem allCountries_not_strictly_ascending :
    GetWorldHandler (storeOfDB ⟨[⟨"AB", "X"⟩, ⟨"CD", "X"⟩], []⟩) "allCountries" "x"
      = jsonResp 200 (Json.arr [Json.str "X", Json.str "X"])
    ∧ (storeOfDB ⟨[⟨"AB", "X"⟩, ⟨"CD", "X"⟩], []⟩).countCountries = Except.ok 2
    ∧ ¬ List.Sorted strLtP ["X", "X"] :=
  ⟨rfl, rfl, by decide⟩

/-- C4 amended: with no failing store query, the allCountries branch
answers 200 with the country name column sorted ascending (one count query
plus one limit-offset query per index); the list length equals the country
row count and the order is non-decreasing, and strictly ascending whenever
the stored names are pairwise distinct. -/
theorem allCountries_enumeration (db : DB) (cityName : String) :
    GetWorldHandler (storeOfDB db) "allCountries" cityName
      = jsonResp 200 (marshalStringSlice (sortedNames db.countryNames))
    ∧ (sortedNames db.countryNames).length = db.countries.length
    ∧ List.Sorted strLeP (sortedNames db.countryNames)
    ∧ (db.countryNames.Nodup → List.Sorted strLtP (sortedNames db.countryNames)) := by
  have hlen : (sortedNames db.countryNames).length = db.countries.length := by
    rw [sortedNames_length]
    simp [DB.countryNames]
  refine ⟨?_, hlen, sortedNames_sorted _, fun h => sortedNames_sorted_strict h⟩
  have hloop := offsetLoop_nthOfList (sortedNames db.countryNames) db.countries.length 0 []
    (by omega)
  simp [GetWorldHandler, storeOfDB_countCountries, storeOfDB_nthCountryName, hloop]

/-- Witness for allCountries_enumeration: a two-country table with
distinct names comes back strictly sorted. -/
theorem allCountries_enumeration_witness :
    List.Sorted strLtP (sortedNames (DB.countryNames ⟨[⟨"JP", "Japan"⟩, ⟨"FR", "France"⟩], []⟩))
    ∧ GetWorldHandler (storeOfDB ⟨[⟨"JP", "Japan"⟩, ⟨"FR", "France"⟩], []⟩) "allCountries" "x"
      = jsonResp 200 (Json.arr [Json.str "France", Json.str "Japan"]) := by
  have h := allCountries_enumeration ⟨[⟨"JP", "Japan"⟩, ⟨"FR", "France"⟩], []⟩ "x"
  refine ⟨h.2.2.2 (by decide), ?_⟩
  rw [h.1]
  rfl

/-- C5: for a drill-down request the country lookup comes first: when it
yields no row the handler answers 404 whatever every city-query oracle
would return, so no city query can influence the outcome; when the code
resolves, the allCities branch answers the ascending name list of exactly
the city rows bearing that code, and the single-city branch answers the
first row matching both the code and the city name, or 404 when no row
matches. -/
theorem world_drilldown_spec :
    (∀ (cc cc2 : DBRes Nat) (nc nc2 : Nat → DBRes String)
       (cb : String → DBRes String) (cnum cnum2 : String → DBRes Nat)
       (nci nci2 : String → Nat → DBRes String)
       (cbn cbn2 : String → String → DBRes City) (countryName cityName : String),
      countryName ≠ "allCountries" →
      cb countryName = Except.error SqlErr.noRows →
      GetWorldHandler ⟨cc, nc, cb, cnum, nci, cbn⟩ countryName cityName = noContent 404
      ∧ GetWorldHandler ⟨cc, nc, cb, cnum, nci, cbn⟩ countryName cityName
        = GetWorldHandler ⟨cc2, nc2, cb, cnum2, nci2, cbn2⟩ countryName cityName)
    ∧ (∀ (db : DB) (countryName code : String),
        countryName ≠ "allCountries" →
        (storeOfDB db).countryCodeByName countryName = Except.ok code →
        GetWorldHandler (storeOfDB db) countryName "allCities"
          = jsonResp 200 (marshalStringSlice (sortedNames (db.cityNamesByCode code)))
        ∧ List.Sorted strLeP (sortedNames (db.cityNamesByCode code))
        ∧ List.Perm (sortedNames (db.cityNamesByCode code)) (db.cityNamesByCode code))
    ∧ (∀ (db : DB) (countryName cityName code : String) (r : CityRow) (rest : List CityRow),
        countryName ≠ "allCountries" → cityName ≠ "allCities" →
        (storeOfDB db).countryCodeByName countryName = Except.ok code →
        db.cities.filter
            (fun row => decide (row.countryCode = code) && decide (row.name = cityName))
          = r :: rest →
        GetWorldHandler (storeOfDB db) countryName cityName
          = jsonResp 200 (marshalCity r.toCity)
        ∧ r.countryCode = code ∧ r.name = cityName)
    ∧ (∀ (db : DB) (countryName cityName code : String),
        countryName ≠ "allCountries" → cityName ≠ "allCities" →
        (storeOfDB db).countryCodeByName countryName = Except.ok code →
        db.cities.filter
            (fun row => decide (row.countryCode = code) && decide (row.name = cityName))
          = [] →
        GetWorldHandler (storeOfDB db) countryName cityName = noContent 404) := by
  refine ⟨?_, ?_, ?_, ?_⟩
  · intro cc cc2 nc nc2 cb cnum cnum2 nci nci2 cbn cbn2 countryName cityName hcn hcb
    by_cases hc : cityName = "allCities" <;> simp [GetWorldHandler, hcn, hc, hcb]
  · intro db countryName code hcn hcode
    refine ⟨?_, sortedNames_sorted _, sortedNames_perm _⟩
    have hloop := offsetLoop_nthOfList (sortedNames (db.cityNamesByCode code))
      (db.cityNamesByCode code).length 0 [] (by rw [sortedNames_length]; omega)
    simp [GetWorldHandler, hcn, hcode, storeOfDB_countCitiesByCode,
      storeOfDB_nthCityNameByCode, hloop]
  · intro db countryName cityName code r rest hcn hc hcode hfilter
    have hr : r ∈ db.cities.filter
        (fun row => decide (row.countryCode = code) && decide (row.name = cityName)) := by
      rw [hfilter]
      exact List.mem_cons_self _ _
    have hpred := (List.mem_filter.mp hr).2
    rw [Bool.and_eq_true] at hpred
    refine ⟨?_, of_decide_eq_true hpred.1, of_decide_eq_true hpred.2⟩
    simp [GetWorldHandler, hcn, hc, hcode, storeOfDB_cityByCodeAndName, hfilter]
  · intro db countryName cityName code hcn hc hcode hfilter
    simp [GetWorldHandler, hcn, hc, hcode, storeOfDB_cityByCodeAndName, hfilter]

/-- Witness for world_drilldown_spec: an unknown country name is answered
404 with oracles that would fail loudly if any city query were consulted. -/
theorem world_drilldown_spec_witness :
    GetWorldHandler ⟨Except.ok 0, fun _ => Except.error SqlErr.noRows,
        fun _ => Except.error SqlErr.noRows, fun _ => Except.ok 0,
        fun _ _ => Except.error SqlErr.noRows, fun _ _ => Except.error SqlErr.noRows⟩
      "Atlantis" "allCities" = noContent 404 :=
  (world_drilldown_spec.1 (Except.ok 0) (Except.ok 0)
    (fun _ => Except.error SqlErr.noRows) (fun _ => Except.error SqlErr.noRows)
    (fun _ => Except.error SqlErr.noRows) (fun _ => Except.ok 0) (fun _ => Except.ok 0)
    (fun _ _ => Except.error SqlErr.noRows) (fun _ _ => Except.error SqlErr.noRows)
    (fun _ _ => Except.error SqlErr.noRows) (fun _ _ => Except.error SqlErr.noRows)
    "Atlantis" "allCities" (by decide) rfl).1

end NaroBackend
